import Mathlib

/-!
Shallow embedding of the secretShare application core:
the tRPC secrets router (`src/server/routers/secrets.ts`) and the
in-memory rate limiter (`src/lib/rate-limit.ts`).

Timestamps are modelled as `Int` (milliseconds since epoch, as in JS
`Date.now()`).  Database records are lists; `prisma.secret.findUnique`
by slug is `List.find?` on the slug field (the slug column is unique in
the schema, but the model does not need to assume it: `find?` matches
the first record, which is the unique one whenever uniqueness holds).
External collaborators are parameters: bcrypt verification is an
arbitrary function `verify : String → String → Bool`, bcrypt hashing an
arbitrary `hashFn`, nanoid an arbitrary generated string `genSlug`, and
the success or failure of the `prisma.accessLog.create` call in
`getBySlug` is a boolean `logOk` (the TS code awaits it with no
try/catch, so a failure propagates as a thrown error, which tRPC wraps
as INTERNAL_SERVER_ERROR).
-/

/-- tRPC error codes used by the routers. -/
inductive ErrCode where
  | NOT_FOUND
  | UNAUTHORIZED
  | FORBIDDEN
  | CONFLICT
  | TOO_MANY_REQUESTS
  | BAD_REQUEST
  | INTERNAL_SERVER_ERROR
  deriving DecidableEq, Repr

/-- A thrown `TRPCError`: code plus human-readable message. -/
structure TRPCErr where
  code : ErrCode
  message : String
  deriving DecidableEq, Repr

/-- Extract the error code of an `Except` result (none when ok). -/
def errCode {α : Type} : Except TRPCErr α → Option ErrCode
  | Except.error e => some e.code
  | Except.ok _ => none

/-- Extract the error message of an `Except` result (none when ok). -/
def errMsg {α : Type} : Except TRPCErr α → Option String
  | Except.error e => some e.message
  | Except.ok _ => none

/-! ## Rate limiter (`src/lib/rate-limit.ts`) -/

/-- One bucket of the in-memory rate limiter store. -/
structure RateLimitEntry where
  count : Nat
  resetTime : Int
  deriving DecidableEq, Repr

/-- Result of `RateLimiter.check`. -/
structure CheckResult where
  allowed : Bool
  remainingRequests : Nat
  resetTime : Int
  deriving DecidableEq, Repr

/-- The `RateLimiter` class: a map from identifier to bucket plus the
fixed window and maximum. The `Map` is modelled as an association list. -/
structure RateLimiter where
  store : List (String × RateLimitEntry)
  windowMs : Int
  maxRequests : Nat
  deriving DecidableEq, Repr

/-- Lookup, i.e. `Map.get`, on the association-list store. -/
def storeGet (st : List (String × RateLimitEntry)) (k : String) :
    Option RateLimitEntry :=
  (st.find? (fun p => p.1 == k)).map (fun p => p.2)

/-- Insertion, i.e. `Map.set`, on the association-list store: replace
or insert. -/
def storeSet (st : List (String × RateLimitEntry)) (k : String)
    (v : RateLimitEntry) : List (String × RateLimitEntry) :=
  match st with
  | [] => [(k, v)]
  | (k', v') :: rest =>
      if k' == k then (k, v) :: rest else (k', v') :: storeSet rest k v

/-- The method `RateLimiter.check(identifier)` from `rate-limit.ts`,
with `now`
passed explicitly in place of `Date.now()`.  Returns the result and the
updated limiter state. -/
def RateLimiter.check (rl : RateLimiter) (now : Int) (identifier : String) :
    CheckResult × RateLimiter :=
  match storeGet rl.store identifier with
  | none =>
      let newEntry : RateLimitEntry := ⟨1, now + rl.windowMs⟩
      (⟨true, rl.maxRequests - 1, newEntry.resetTime⟩,
       { rl with store := storeSet rl.store identifier newEntry })
  | some entry =>
      if now > entry.resetTime then
        let newEntry : RateLimitEntry := ⟨1, now + rl.windowMs⟩
        (⟨true, rl.maxRequests - 1, newEntry.resetTime⟩,
         { rl with store := storeSet rl.store identifier newEntry })
      else if entry.count ≥ rl.maxRequests then
        (⟨false, 0, entry.resetTime⟩, rl)
      else
        let updated : RateLimitEntry := ⟨entry.count + 1, entry.resetTime⟩
        (⟨true, rl.maxRequests - updated.count, entry.resetTime⟩,
         { rl with store := storeSet rl.store identifier updated })

/-- Iterated check: `n` successive `check` calls for the same
identifier at the same
instant, returning the final limiter state. -/
def checkIter (rl : RateLimiter) (now : Int) (id : String) : Nat → RateLimiter
  | 0 => rl
  | n + 1 => ((checkIter rl now id n).check now id).2

/-- The sweep `cleanup()` from `rate-limit.ts`: drop buckets whose
window has
passed. -/
def RateLimiter.cleanup (rl : RateLimiter) (now : Int) : RateLimiter :=
  { rl with store := rl.store.filter (fun p => !(now > p.2.resetTime)) }

/-! ## Request context (`src/server/trpc.ts`, `getClientIdentifier`) -/

/-- An incoming request, reduced to its header map. -/
structure Request where
  headers : List (String × String)
  deriving DecidableEq, Repr

/-- Header lookup `req.headers.get(k)`: first matching header or null. -/
def headerGet (req : Request) (k : String) : Option String :=
  (req.headers.find? (fun p => p.1 == k)).map (fun p => p.2)

/-- JS truthiness of a nullable string: null and the empty string are
falsy. -/
def strTruthy : Option String → Bool
  | some s => !(s == "")
  | none => false

/-- The function `getClientIdentifier(req)` from `rate-limit.ts`:
forwarded-for
(first comma-separated entry, trimmed), then real-ip, then "unknown". -/
def getClientIdentifier (req : Request) : String :=
  let forwarded := headerGet req "x-forwarded-for"
  let realIp := headerGet req "x-real-ip"
  if strTruthy forwarded then
    (((forwarded.getD "").splitOn ",").headD "").trim
  else if strTruthy realIp then
    realIp.getD ""
  else
    "unknown"

/-- The authenticated user carried in the tRPC context. -/
structure UserCtx where
  id : Nat
  email : String
  deriving DecidableEq, Repr

/-- The tRPC `Context`: optional request, optional user. -/
structure Ctx where
  req : Option Request
  user : Option UserCtx
  deriving DecidableEq, Repr

/-- A context with no request object and no user (e.g. a server-side
caller): rate limiting is skipped entirely on this path. -/
def ctxAnon : Ctx := ⟨none, none⟩

/-! ## Data model (`prisma/schema.prisma`) -/

/-- The `Secret` record.  `password` stores the bcrypt hash (nullable),
matching the schema column of the same name. -/
structure Secret where
  id : Nat
  title : Option String
  content : String
  slug : String
  password : Option String
  expiresAt : Option Int
  isOneTimeAccess : Bool
  hasBeenAccessed : Bool
  userId : Option Nat
  createdAt : Int
  updatedAt : Int
  deriving DecidableEq, Repr

/-- The `AccessLog` record. -/
structure AccessLog where
  secretId : Nat
  ipAddress : String
  userAgent : String
  deriving DecidableEq, Repr

/-- The persistent store: secrets and access logs, plus a counter
standing in for cuid generation of fresh ids. -/
structure DB where
  secrets : List Secret
  accessLogs : List AccessLog
  nextId : Nat
  deriving DecidableEq, Repr

/-- Lookup of a secret by its unique slug column, as done by the
prisma findUnique call on slug. -/
def findUniqueBySlug (db : DB) (slug : String) : Option Secret :=
  db.secrets.find? (fun s => s.slug == slug)

/-- Lookup of a secret by its unique id column, as done by the prisma
findUnique call on id. -/
def findUniqueById (db : DB) (id : Nat) : Option Secret :=
  db.secrets.find? (fun s => s.id == id)

/-- The expiry gate of `getBySlug`/`checkRequirements`:
`secret.expiresAt && secret.expiresAt < new Date()`.  Note the strict
comparison: at `now = expiresAt` the secret is not yet expired. -/
def isExpiredAt (now : Int) (s : Secret) : Bool :=
  match s.expiresAt with
  | some e => decide (e < now)
  | none => false

/-- The one-time-consumed gate:
`secret.isOneTimeAccess && secret.hasBeenAccessed`. -/
def isConsumed (s : Secret) : Bool :=
  s.isOneTimeAccess && s.hasBeenAccessed

/-- The password gate of `getBySlug` (lines 114-129): runs only when a
password hash is stored (JS-truthy); a missing or empty supplied
password yields UNAUTHORIZED "Password required"; a bcrypt mismatch
yields UNAUTHORIZED "Invalid password"; `none` means the gate passes. -/
def passwordCheck (verify : String → String → Bool) (s : Secret)
    (password : Option String) : Option TRPCErr :=
  match s.password with
  | none => none
  | some h =>
      if h == "" then none
      else
        match password with
        | none => some ⟨ErrCode.UNAUTHORIZED, "Password required"⟩
        | some p =>
            if p == "" then some ⟨ErrCode.UNAUTHORIZED, "Password required"⟩
            else if verify p h then none
            else some ⟨ErrCode.UNAUTHORIZED, "Invalid password"⟩

/-- Whether the password gate passes. -/
def passwordGateOk (verify : String → String → Bool) (s : Secret)
    (password : Option String) : Bool :=
  (passwordCheck verify s password).isNone

/-! ## The secrets router (`src/server/routers/secrets.ts`) -/

/-- The ip recorded in the access log:
`ctx.req?.headers.get(x-forwarded-for) || ... x-real-ip ... || "unknown"`. -/
def logIp (req : Option Request) : String :=
  let f := req.bind (fun r => headerGet r "x-forwarded-for")
  let ri := req.bind (fun r => headerGet r "x-real-ip")
  if strTruthy f then f.getD ""
  else if strTruthy ri then ri.getD ""
  else "unknown"

/-- The user agent recorded in the access log. -/
def logAgent (req : Option Request) : String :=
  let ua := req.bind (fun r => headerGet r "user-agent")
  if strTruthy ua then ua.getD "" else "unknown"

/-- The projection returned by a successful `getBySlug`. -/
structure GetResult where
  id : Nat
  title : Option String
  content : String
  expiresAt : Option Int
  isOneTimeAccess : Bool
  createdAt : Int
  deriving DecidableEq, Repr

/-- The projection returned by a successful `checkRequirements`. -/
structure CheckReqResult where
  id : Nat
  title : Option String
  requiresPassword : Bool
  expiresAt : Option Int
  isOneTimeAccess : Bool
  createdAt : Int
  deriving DecidableEq, Repr

/-- The (already zod-validated, date-parsed) input of `create`. -/
structure CreateInput where
  title : Option String
  content : String
  password : Option String
  expiresAt : Option Int
  isOneTimeAccess : Bool
  deriving DecidableEq, Repr

/-- The public-safe projection returned by `create`: no content field,
no password field. -/
structure CreateResult where
  id : Nat
  slug : String
  title : Option String
  expiresAt : Option Int
  isOneTimeAccess : Bool
  createdAt : Int
  deriving DecidableEq, Repr

/-- The projection returned by a successful `update`. -/
structure UpdateResult where
  id : Nat
  title : Option String
  expiresAt : Option Int
  updatedAt : Int
  deriving DecidableEq, Repr

/-- The admission-control prologue shared by `create` and `getBySlug`:
run only when `ctx.req` is present; on rejection, the given
TOO_MANY_REQUESTS error. -/
def rateGate (ctx : Ctx) (rl : RateLimiter) (now : Int) (msg : String) :
    Option TRPCErr × RateLimiter :=
  match ctx.req with
  | some req =>
      let clientId := getClientIdentifier req
      let res := rl.check now clientId
      if res.1.allowed then (none, res.2)
      else (some ⟨ErrCode.TOO_MANY_REQUESTS, msg⟩, res.2)
  | none => (none, rl)

/-- The store effect of a successful disclosure: append the access-log
row, then, for a one-time secret, set `hasBeenAccessed` on the row with
the matching id (prisma also bumps `updatedAt`). -/
def discloseDB (now : Int) (ctx : Ctx) (db : DB) (secret : Secret) : DB :=
  let db2 : DB :=
    { db with accessLogs := db.accessLogs ++
        [⟨secret.id, logIp ctx.req, logAgent ctx.req⟩] }
  if secret.isOneTimeAccess then
    { db2 with secrets := db2.secrets.map (fun s =>
        if s.id == secret.id then
          { s with hasBeenAccessed := true, updatedAt := now }
        else s) }
  else db2

/-- The query `getBySlug` (lines 62-158 of `secrets.ts`).  `verify`
stands for
`bcrypt.compare`, `logOk` for the success of the awaited
`prisma.accessLog.create` call (a failure is not caught and aborts the
query), `now` for `Date.now()`.  Returns the response, the updated
store and the updated access rate limiter. -/
def getBySlug (verify : String → String → Bool) (logOk : Bool) (now : Int)
    (ctx : Ctx) (rl : RateLimiter) (db : DB)
    (slug : String) (password : Option String) :
    Except TRPCErr GetResult × DB × RateLimiter :=
  match rateGate ctx rl now
      "Too many secret access attempts. Please try again later." with
  | (some e, rl2) => (Except.error e, db, rl2)
  | (none, rl2) =>
    match findUniqueBySlug db slug with
    | none => (Except.error ⟨ErrCode.NOT_FOUND, "Secret not found"⟩, db, rl2)
    | some secret =>
      if isExpiredAt now secret then
        (Except.error ⟨ErrCode.NOT_FOUND, "Secret has expired"⟩, db, rl2)
      else if isConsumed secret then
        (Except.error ⟨ErrCode.NOT_FOUND, "Secret has already been accessed"⟩,
         db, rl2)
      else
        match passwordCheck verify secret password with
        | some e => (Except.error e, db, rl2)
        | none =>
          if logOk then
            (Except.ok ⟨secret.id, secret.title, secret.content,
                secret.expiresAt, secret.isOneTimeAccess, secret.createdAt⟩,
             discloseDB now ctx db secret, rl2)
          else
            (Except.error ⟨ErrCode.INTERNAL_SERVER_ERROR,
                "Failed to create access log entry"⟩, db, rl2)

/-- The query `checkRequirements` (lines 160-211 of `secrets.ts`).
Read-only and
not rate limited. -/
def checkRequirements (now : Int) (db : DB) (slug : String) :
    Except TRPCErr CheckReqResult :=
  match findUniqueBySlug db slug with
  | none => Except.error ⟨ErrCode.NOT_FOUND, "Secret not found"⟩
  | some secret =>
      if isExpiredAt now secret then
        Except.error ⟨ErrCode.NOT_FOUND, "Secret has expired"⟩
      else if isConsumed secret then
        Except.error ⟨ErrCode.NOT_FOUND, "Secret has already been accessed"⟩
      else
        Except.ok ⟨secret.id, secret.title, strTruthy secret.password,
          secret.expiresAt, secret.isOneTimeAccess, secret.createdAt⟩

/-- The mutation `create` (lines 9-60 of `secrets.ts`).  `hashFn`
stands for
`bcrypt.hash` at cost 12, `genSlug` for the string produced by
`nanoid(12)`.  The zod `min(1)` on content is modelled as a BAD_REQUEST
on empty content.  A single slug is generated; if it collides with an
existing row, `prisma.secret.create` throws a unique-constraint error
(wrapped as INTERNAL_SERVER_ERROR) and no retry happens.
`createdSecret` is the row handed to `prisma.secret.create`. -/
def createdSecret (hashFn : String → String) (now : Int) (ctx : Ctx)
    (genSlug : String) (input : CreateInput) (db : DB) : Secret :=
  { id := db.nextId, title := input.title, content := input.content,
    slug := genSlug,
    password :=
      if strTruthy input.password then some (hashFn (input.password.getD ""))
      else none,
    expiresAt := input.expiresAt,
    isOneTimeAccess := input.isOneTimeAccess,
    hasBeenAccessed := false,
    userId := ctx.user.map (fun u => u.id),
    createdAt := now, updatedAt := now }

def create (hashFn : String → String) (now : Int) (ctx : Ctx)
    (rl : RateLimiter) (genSlug : String) (input : CreateInput) (db : DB) :
    Except TRPCErr CreateResult × DB × RateLimiter :=
  if input.content == "" then
    (Except.error ⟨ErrCode.BAD_REQUEST, "Content is required"⟩, db, rl)
  else
    match rateGate ctx rl now
        "Too many secrets created. Please try again later." with
    | (some e, rl2) => (Except.error e, db, rl2)
    | (none, rl2) =>
      if db.secrets.any (fun s => s.slug == genSlug) then
        (Except.error ⟨ErrCode.INTERNAL_SERVER_ERROR,
            "Unique constraint failed on the fields: (slug)"⟩, db, rl2)
      else
        let secret : Secret := createdSecret hashFn now ctx genSlug input db
        (Except.ok ⟨secret.id, secret.slug, secret.title, secret.expiresAt,
            secret.isOneTimeAccess, secret.createdAt⟩,
         { db with secrets := db.secrets ++ [secret], nextId := db.nextId + 1 },
         rl2)

/-- The field mutation performed by the prisma call in `update`:
`undefined` inputs leave the column unchanged; `updatedAt` is bumped by
the schema. -/
def applyUpdate (now : Int) (title : Option String) (expiresAt : Option Int)
    (s : Secret) : Secret :=
  { s with
    title := match title with | some t => some t | none => s.title
    expiresAt := match expiresAt with | some e => some e | none => s.expiresAt
    updatedAt := now }

/-- The mutation `update` (lines 287-337 of `secrets.ts`).  A
protected procedure:
`requesterId` is the authenticated user id. -/
def update (now : Int) (requesterId : Nat) (db : DB) (id : Nat)
    (title : Option String) (expiresAt : Option Int) :
    Except TRPCErr UpdateResult × DB :=
  match findUniqueById db id with
  | none => (Except.error ⟨ErrCode.NOT_FOUND, "Secret not found"⟩, db)
  | some secret =>
      if secret.userId != some requesterId then
        (Except.error ⟨ErrCode.FORBIDDEN,
            "Not authorized to update this secret"⟩, db)
      else
        let updated := applyUpdate now title expiresAt secret
        (Except.ok ⟨updated.id, updated.title, updated.expiresAt,
            updated.updatedAt⟩,
         { db with secrets := db.secrets.map (fun s =>
             if s.id == id then applyUpdate now title expiresAt s else s) })

/-! ## Concrete fixtures used by witnesses and counterexamples -/

/-- A concrete rate limiter: empty store, window 5, maximum 2 requests. -/
def rlW : RateLimiter := ⟨[], 5, 2⟩

/-- A one-time, unprotected, never-expiring secret. -/
def secW : Secret :=
  { id := 1, title := none, content := "top", slug := "s1",
    password := none, expiresAt := none, isOneTimeAccess := true,
    hasBeenAccessed := false, userId := none, createdAt := 0, updatedAt := 0 }

/-- A store holding only `secW`. -/
def dbW : DB := ⟨[secW], [], 2⟩

/-- A secret whose expiry (50) has passed at time 100. -/
def secExpired : Secret :=
  { id := 10, title := none, content := "ce", slug := "se",
    password := none, expiresAt := some 50, isOneTimeAccess := false,
    hasBeenAccessed := false, userId := none, createdAt := 0, updatedAt := 0 }

/-- A one-time secret that has already been accessed. -/
def secConsumed : Secret :=
  { id := 11, title := none, content := "cc", slug := "sc",
    password := none, expiresAt := none, isOneTimeAccess := true,
    hasBeenAccessed := true, userId := none, createdAt := 0, updatedAt := 0 }

/-- A store with one expired and one consumed secret; slug "sn" absent. -/
def dbProbe : DB := ⟨[secExpired, secConsumed], [], 12⟩

/-- A secret expiring exactly at time 100. -/
def secBoundary : Secret :=
  { id := 20, title := none, content := "cb", slug := "sb",
    password := none, expiresAt := some 100, isOneTimeAccess := false,
    hasBeenAccessed := false, userId := none, createdAt := 0, updatedAt := 0 }

/-- A store holding only `secBoundary`. -/
def dbBoundary : DB := ⟨[secBoundary], [], 21⟩

/-- A secret owned by user 7. -/
def secOwned : Secret :=
  { id := 30, title := some "t", content := "co", slug := "so",
    password := none, expiresAt := none, isOneTimeAccess := false,
    hasBeenAccessed := false, userId := some 7, createdAt := 0,
    updatedAt := 0 }

/-- A store holding only `secOwned`. -/
def dbOwned : DB := ⟨[secOwned], [], 31⟩

/-- A saturated rate limiter: the bucket for identifier "unknown" is
full (count 2 of 2) with a live window until time 1000. -/
def rlSat : RateLimiter := ⟨[("unknown", ⟨2, 1000⟩)], 5, 2⟩

/-! ## Helper lemmas: rate limiter -/

theorem storeGet_cons (k' : String) (v' : RateLimitEntry)
    (tl : List (String × RateLimitEntry)) (k : String) :
    storeGet ((k', v') :: tl) k
      = if k' == k then some v' else storeGet tl k := by
  by_cases h : k' = k
  · simp [storeGet, List.find?, h]
  · have hb : (k' == k) = false := by simp [h]
    simp [storeGet, List.find?, hb, h]

theorem storeGet_storeSet_self (st : List (String × RateLimitEntry))
    (k : String) (v : RateLimitEntry) :
    storeGet (storeSet st k v) k = some v := by
  induction st with
  | nil => simp [storeSet, storeGet, List.find?]
  | cons p rest ih =>
      obtain ⟨k', v'⟩ := p
      by_cases h : k' = k
      · simp [storeSet, h, storeGet_cons]
      · simp only [storeSet, beq_iff_eq, if_neg h]
        rw [storeGet_cons]
        simp [h, ih]

theorem check_at_none (rl : RateLimiter) (now : Int) (id : String)
    (h : storeGet rl.store id = none) :
    rl.check now id = (⟨true, rl.maxRequests - 1, now + rl.windowMs⟩,
      { rl with store := storeSet rl.store id ⟨1, now + rl.windowMs⟩ }) := by
  simp [RateLimiter.check, h]

theorem check_at_entry (rl : RateLimiter) (now : Int) (id : String)
    (c : Nat) (rt : Int)
    (h : storeGet rl.store id = some ⟨c, rt⟩) (hin : ¬ now > rt) :
    rl.check now id =
      if c ≥ rl.maxRequests then (⟨false, 0, rt⟩, rl)
      else (⟨true, rl.maxRequests - (c + 1), rt⟩,
            { rl with store := storeSet rl.store id ⟨c + 1, rt⟩ }) := by
  simp [RateLimiter.check, h, hin]

theorem check_at_entry_reset (rl : RateLimiter) (now : Int) (id : String)
    (c : Nat) (rt : Int)
    (h : storeGet rl.store id = some ⟨c, rt⟩) (hgt : now > rt) :
    rl.check now id = (⟨true, rl.maxRequests - 1, now + rl.windowMs⟩,
      { rl with store := storeSet rl.store id ⟨1, now + rl.windowMs⟩ }) := by
  simp [RateLimiter.check, h, hgt]

theorem checkIter_entry (rl : RateLimiter) (now : Int) (id : String)
    (h0 : storeGet rl.store id = none)
    (hN : 1 ≤ rl.maxRequests) (hw : 0 ≤ rl.windowMs) :
    ∀ i : Nat,
      storeGet (checkIter rl now id (i + 1)).store id
          = some ⟨min (i + 1) rl.maxRequests, now + rl.windowMs⟩
      ∧ (checkIter rl now id (i + 1)).windowMs = rl.windowMs
      ∧ (checkIter rl now id (i + 1)).maxRequests = rl.maxRequests := by
  intro i
  induction i with
  | zero =>
      have h1 : checkIter rl now id 1 = (rl.check now id).2 := rfl
      rw [h1, check_at_none rl now id h0]
      refine ⟨?_, rfl, rfl⟩
      rw [storeGet_storeSet_self]
      have : min 1 rl.maxRequests = 1 := by omega
      rw [this]
  | succ n ih =>
      obtain ⟨he, hwEq, hmEq⟩ := ih
      have hstep : checkIter rl now id (n + 2)
          = ((checkIter rl now id (n + 1)).check now id).2 := rfl
      have hin : ¬ now > now + rl.windowMs := by omega
      rw [hstep, check_at_entry _ now id _ _ he hin]
      by_cases hge : min (n + 1) rl.maxRequests ≥
          (checkIter rl now id (n + 1)).maxRequests
      · rw [if_pos hge]
        rw [hmEq] at hge
        have hmin : min (n + 2) rl.maxRequests = min (n + 1) rl.maxRequests := by
          omega
        rw [hmin]
        exact ⟨he, hwEq, hmEq⟩
      · rw [if_neg hge]
        rw [hmEq] at hge
        refine ⟨?_, hwEq, hmEq⟩
        rw [storeGet_storeSet_self]
        have hmin : min (n + 2) rl.maxRequests
            = min (n + 1) rl.maxRequests + 1 := by omega
        rw [hmin]

/-- C4: fixed-window rate limiting.  For a bucket with no prior entry,
window `w ≥ 0` and `maxRequests = N ≥ 1`: the first request of the
window is allowed, creates the entry `(1, now + w)`; each of the first
N same-window requests is allowed; the (N+1)-th and every later
same-window request is rejected with `remaining = 0` and does not
increment the counter (the limiter state is unchanged); and a request
issued strictly after `resetAt = now + w` is allowed again and resets
the counter to 1 with a fresh window. -/
theorem C4_rate_limit_window (rl : RateLimiter) (now : Int) (id : String)
    (h0 : storeGet rl.store id = none)
    (hN : 1 ≤ rl.maxRequests) (hw : 0 ≤ rl.windowMs) :
    ((rl.check now id).1.allowed = true
      ∧ storeGet (rl.check now id).2.store id = some ⟨1, now + rl.windowMs⟩
      ∧ (rl.check now id).1.resetTime = now + rl.windowMs)
    ∧ (∀ i : Nat, i + 1 ≤ rl.maxRequests →
        ((checkIter rl now id i).check now id).1.allowed = true)
    ∧ (∀ j : Nat, rl.maxRequests ≤ j →
        ((checkIter rl now id j).check now id).1
            = ⟨false, 0, now + rl.windowMs⟩
        ∧ ((checkIter rl now id j).check now id).2 = checkIter rl now id j)
    ∧ (∀ now2 : Int, now + rl.windowMs < now2 →
        ((checkIter rl now id rl.maxRequests).check now2 id).1.allowed = true
        ∧ storeGet
            ((checkIter rl now id rl.maxRequests).check now2 id).2.store id
            = some ⟨1, now2 + rl.windowMs⟩) := by
  have hin : ¬ now > now + rl.windowMs := by omega
  refine ⟨?_, ?_, ?_, ?_⟩
  · rw [check_at_none rl now id h0]
    exact ⟨rfl, storeGet_storeSet_self _ _ _, rfl⟩
  · intro i hi
    cases i with
    | zero =>
        have h1 : checkIter rl now id 0 = rl := rfl
        rw [h1, check_at_none rl now id h0]
    | succ m =>
        obtain ⟨he, hwEq, hmEq⟩ := checkIter_entry rl now id h0 hN hw m
        have hin2 : ¬ now > now + (checkIter rl now id (m + 1)).windowMs := by
          rw [hwEq]; omega
        rw [check_at_entry _ now id _ _ he hin]
        have hlt : ¬ min (m + 1) rl.maxRequests ≥
            (checkIter rl now id (m + 1)).maxRequests := by
          rw [hmEq]; omega
        rw [if_neg hlt]
  · intro j hj
    have hj1 : 1 ≤ j := le_trans hN hj
    obtain ⟨m, rfl⟩ : ∃ m, j = m + 1 := ⟨j - 1, by omega⟩
    obtain ⟨he, hwEq, hmEq⟩ := checkIter_entry rl now id h0 hN hw m
    rw [check_at_entry _ now id _ _ he hin]
    have hge : min (m + 1) rl.maxRequests ≥
        (checkIter rl now id (m + 1)).maxRequests := by
      rw [hmEq]; omega
    rw [if_pos hge]
    exact ⟨rfl, rfl⟩
  · intro now2 h2
    obtain ⟨m, hm⟩ : ∃ m, rl.maxRequests = m + 1 := ⟨rl.maxRequests - 1, by omega⟩
    obtain ⟨he, hwEq, hmEq⟩ := checkIter_entry rl now id h0 hN hw m
    have hgt : now2 > now + rl.windowMs := h2
    rw [hm, check_at_entry_reset _ now2 id _ _ he hgt]
    refine ⟨rfl, ?_⟩
    rw [storeGet_storeSet_self, hwEq]

/-- Witness for C4 at the concrete limiter `rlW`, identifier "a",
first request at time 0. -/
theorem C4_rate_limit_window_witness :
    storeGet rlW.store "a" = none ∧ 1 ≤ rlW.maxRequests ∧ 0 ≤ rlW.windowMs ∧
    (((rlW.check 0 "a").1.allowed = true
      ∧ storeGet (rlW.check 0 "a").2.store "a" = some ⟨1, 0 + rlW.windowMs⟩
      ∧ (rlW.check 0 "a").1.resetTime = 0 + rlW.windowMs)
    ∧ (∀ i : Nat, i + 1 ≤ rlW.maxRequests →
        ((checkIter rlW 0 "a" i).check 0 "a").1.allowed = true)
    ∧ (∀ j : Nat, rlW.maxRequests ≤ j →
        ((checkIter rlW 0 "a" j).check 0 "a").1 = ⟨false, 0, 0 + rlW.windowMs⟩
        ∧ ((checkIter rlW 0 "a" j).check 0 "a").2 = checkIter rlW 0 "a" j)
    ∧ (∀ now2 : Int, 0 + rlW.windowMs < now2 →
        ((checkIter rlW 0 "a" rlW.maxRequests).check now2 "a").1.allowed = true
        ∧ storeGet
            ((checkIter rlW 0 "a" rlW.maxRequests).check now2 "a").2.store "a"
            = some ⟨1, now2 + rlW.windowMs⟩)) :=
  ⟨rfl, by decide, by decide,
   C4_rate_limit_window rlW 0 "a" rfl (by decide) (by decide)⟩

/-! ## Helper lemmas: list lookups -/

theorem find?_append_of_none {α : Type} (l1 l2 : List α) (p : α → Bool)
    (h : l1.find? p = none) : (l1 ++ l2).find? p = l2.find? p := by
  induction l1 with
  | nil => rfl
  | cons a tl ih =>
      cases hpa : p a
      · simp only [List.find?, hpa] at h
        simp only [List.cons_append, List.find?, hpa]
        exact ih h
      · simp only [List.find?, hpa] at h
        cases h

theorem find?_map_slug_pres (l : List Secret) (f : Secret → Secret)
    (slug : String) (hpres : ∀ s, (f s).slug = s.slug) :
    (l.map f).find? (fun s => s.slug == slug)
      = (l.find? (fun s => s.slug == slug)).map f := by
  induction l with
  | nil => rfl
  | cons a tl ih =>
      simp only [List.map, List.find?, hpres a]
      cases hpa : (a.slug == slug)
      · simpa using ih
      · simp

/-! ## Helper lemmas: getBySlug paths (anonymous context) -/

theorem getBySlug_anon_absent (verify : String → String → Bool) (logOk : Bool)
    (now : Int) (rl : RateLimiter) (db : DB) (slug : String)
    (pw : Option String)
    (hfind : findUniqueBySlug db slug = none) :
    getBySlug verify logOk now ctxAnon rl db slug pw
      = (Except.error ⟨ErrCode.NOT_FOUND, "Secret not found"⟩, db, rl) := by
  simp [getBySlug, rateGate, ctxAnon, hfind]

theorem getBySlug_anon_expired (verify : String → String → Bool)
    (logOk : Bool) (now : Int) (rl : RateLimiter) (db : DB) (slug : String)
    (pw : Option String) (sec : Secret)
    (hfind : findUniqueBySlug db slug = some sec)
    (hexp : isExpiredAt now sec = true) :
    getBySlug verify logOk now ctxAnon rl db slug pw
      = (Except.error ⟨ErrCode.NOT_FOUND, "Secret has expired"⟩, db, rl) := by
  simp [getBySlug, rateGate, ctxAnon, hfind, hexp]

theorem getBySlug_anon_consumed (verify : String → String → Bool)
    (logOk : Bool) (now : Int) (rl : RateLimiter) (db : DB) (slug : String)
    (pw : Option String) (sec : Secret)
    (hfind : findUniqueBySlug db slug = some sec)
    (hexp : isExpiredAt now sec = false)
    (hcons : isConsumed sec = true) :
    getBySlug verify logOk now ctxAnon rl db slug pw
      = (Except.error ⟨ErrCode.NOT_FOUND, "Secret has already been accessed"⟩,
         db, rl) := by
  simp [getBySlug, rateGate, ctxAnon, hfind, hexp, hcons]

theorem getBySlug_anon_pwerr (verify : String → String → Bool) (logOk : Bool)
    (now : Int) (rl : RateLimiter) (db : DB) (slug : String)
    (pw : Option String) (sec : Secret) (e : TRPCErr)
    (hfind : findUniqueBySlug db slug = some sec)
    (hexp : isExpiredAt now sec = false)
    (hcons : isConsumed sec = false)
    (hpc : passwordCheck verify sec pw = some e) :
    getBySlug verify logOk now ctxAnon rl db slug pw
      = (Except.error e, db, rl) := by
  simp [getBySlug, rateGate, ctxAnon, hfind, hexp, hcons, hpc]

theorem getBySlug_anon_success (verify : String → String → Bool) (now : Int)
    (rl : RateLimiter) (db : DB) (slug : String) (pw : Option String)
    (sec : Secret)
    (hfind : findUniqueBySlug db slug = some sec)
    (hexp : isExpiredAt now sec = false)
    (hcons : isConsumed sec = false)
    (hpc : passwordCheck verify sec pw = none) :
    getBySlug verify true now ctxAnon rl db slug pw
      = (Except.ok ⟨sec.id, sec.title, sec.content, sec.expiresAt,
          sec.isOneTimeAccess, sec.createdAt⟩,
         discloseDB now ctxAnon db sec, rl) := by
  simp [getBySlug, rateGate, ctxAnon, hfind, hexp, hcons, hpc]

theorem getBySlug_anon_logfail (verify : String → String → Bool) (now : Int)
    (rl : RateLimiter) (db : DB) (slug : String) (pw : Option String)
    (sec : Secret)
    (hfind : findUniqueBySlug db slug = some sec)
    (hexp : isExpiredAt now sec = false)
    (hcons : isConsumed sec = false)
    (hpc : passwordCheck verify sec pw = none) :
    getBySlug verify false now ctxAnon rl db slug pw
      = (Except.error ⟨ErrCode.INTERNAL_SERVER_ERROR,
          "Failed to create access log entry"⟩, db, rl) := by
  simp [getBySlug, rateGate, ctxAnon, hfind, hexp, hcons, hpc]

/-- The store returned by `getBySlug` is either untouched (every error
path) or the disclosure effect for the found secret. -/
theorem getBySlug_db_cases (verify : String → String → Bool) (logOk : Bool)
    (now : Int) (ctx : Ctx) (rl : RateLimiter) (db : DB) (slug : String)
    (pw : Option String) :
    (getBySlug verify logOk now ctx rl db slug pw).2.1 = db
    ∨ ∃ sec : Secret,
        (getBySlug verify logOk now ctx rl db slug pw).2.1
          = discloseDB now ctx db sec := by
  unfold getBySlug
  rcases hrg : rateGate ctx rl now
      "Too many secret access attempts. Please try again later." with ⟨o, rlx⟩
  cases o with
  | some e => left; simp
  | none =>
      cases hf : findUniqueBySlug db slug with
      | none => left; simp
      | some sec =>
          by_cases hexp : isExpiredAt now sec = true
          · left; simp [hexp]
          · by_cases hcons : isConsumed sec = true
            · left; simp [hexp, hcons]
            · cases hpc : passwordCheck verify sec pw with
              | some e => left; simp [hexp, hcons, hpc]
              | none =>
                  cases logOk with
                  | false => left; simp [hexp, hcons, hpc]
                  | true =>
                      right
                      exact ⟨sec, by simp [hexp, hcons, hpc]⟩

/-- The disclosure effect never clears `hasBeenAccessed` on any row. -/
theorem discloseDB_secrets_mono (now : Int) (ctx : Ctx) (db : DB)
    (sec : Secret) :
    List.Forall₂
      (fun s s2 => s.hasBeenAccessed = true → s2.hasBeenAccessed = true)
      db.secrets (discloseDB now ctx db sec).secrets := by
  unfold discloseDB
  by_cases h : sec.isOneTimeAccess
  · simp only [h, if_true]
    rw [List.forall₂_map_right_iff]
    refine List.forall₂_same.2 (fun x _ hacc => ?_)
    by_cases hid : (x.id == sec.id) = true <;> simp [hid, hacc]
  · simp only [h, if_false]
    exact List.forall₂_same.2 (fun x _ hacc => hacc)

/-- C1: for a secret created with `isOneTimeAccess = true` whose other
gates pass (not expired, not yet accessed, password gate passes), the
first `getBySlug` succeeds and returns the content; in the resulting
store the secret has `hasBeenAccessed = true`; every subsequent
`getBySlug` for the same slug (any time, any password, any limiter)
yields a NOT_FOUND error; and no `getBySlug` call ever moves
`hasBeenAccessed` from true back to false on any row. -/
theorem C1_one_time_single_disclosure (verify : String → String → Bool)
    (now : Int) (rl : RateLimiter) (db : DB) (slug : String)
    (pw : Option String) (sec : Secret)
    (hfind : findUniqueBySlug db slug = some sec)
    (hone : sec.isOneTimeAccess = true)
    (hnacc : sec.hasBeenAccessed = false)
    (hexp : isExpiredAt now sec = false)
    (hpc : passwordCheck verify sec pw = none) :
    (∃ res : GetResult,
        (getBySlug verify true now ctxAnon rl db slug pw).1 = Except.ok res
        ∧ res.content = sec.content)
    ∧ findUniqueBySlug (getBySlug verify true now ctxAnon rl db slug pw).2.1
        slug = some { sec with hasBeenAccessed := true, updatedAt := now }
    ∧ (∀ (verify2 : String → String → Bool) (logOk2 : Bool) (now2 : Int)
          (rl2 : RateLimiter) (pw2 : Option String),
        errCode (getBySlug verify2 logOk2 now2 ctxAnon rl2
            (getBySlug verify true now ctxAnon rl db slug pw).2.1
            slug pw2).1 = some ErrCode.NOT_FOUND)
    ∧ (∀ (verify2 : String → String → Bool) (logOk2 : Bool) (now2 : Int)
          (ctx2 : Ctx) (rl2 : RateLimiter) (db2 : DB) (slug2 : String)
          (pw2 : Option String),
        List.Forall₂
          (fun s s2 => s.hasBeenAccessed = true → s2.hasBeenAccessed = true)
          db2.secrets
          (getBySlug verify2 logOk2 now2 ctx2 rl2 db2 slug2 pw2).2.1.secrets)
    := by
  have hcons : isConsumed sec = false := by simp [isConsumed, hnacc]
  have hsucc := getBySlug_anon_success verify now rl db slug pw sec
    hfind hexp hcons hpc
  have hfind2 : findUniqueBySlug (discloseDB now ctxAnon db sec) slug
      = some { sec with hasBeenAccessed := true, updatedAt := now } := by
    unfold findUniqueBySlug discloseDB
    simp only [hone, if_true]
    rw [find?_map_slug_pres _ _ slug
      (by intro s; by_cases h : (s.id == sec.id) = true <;> simp [h])]
    have : db.secrets.find? (fun s => s.slug == slug) = some sec := hfind
    rw [this]
    simp [hone]
  refine ⟨⟨⟨sec.id, sec.title, sec.content, sec.expiresAt,
      sec.isOneTimeAccess, sec.createdAt⟩, by rw [hsucc], rfl⟩, ?_, ?_, ?_⟩
  · rw [hsucc]
    exact hfind2
  · intro verify2 logOk2 now2 rl2 pw2
    rw [hsucc]
    by_cases hexp2 : isExpiredAt now2
        { sec with hasBeenAccessed := true, updatedAt := now } = true
    · rw [getBySlug_anon_expired verify2 logOk2 now2 rl2 _ slug pw2 _
        hfind2 hexp2]
      rfl
    · have hcons2 : isConsumed
          { sec with hasBeenAccessed := true, updatedAt := now } = true := by
        simp [isConsumed, hone]
      rw [getBySlug_anon_consumed verify2 logOk2 now2 rl2 _ slug pw2 _
        hfind2 (by simpa using hexp2) hcons2]
      rfl
  · intro verify2 logOk2 now2 ctx2 rl2 db2 slug2 pw2
    rcases getBySlug_db_cases verify2 logOk2 now2 ctx2 rl2 db2 slug2 pw2 with
      h | ⟨sec2, h⟩
    · rw [h]
      exact List.forall₂_same.2 (fun x _ hacc => hacc)
    · rw [h]
      exact discloseDB_secrets_mono now2 ctx2 db2 sec2


/-- Every error produced by the password gate carries code UNAUTHORIZED. -/
theorem passwordCheck_code (verify : String → String → Bool) (s : Secret)
    (p : Option String) (e : TRPCErr)
    (h : passwordCheck verify s p = some e) :
    e.code = ErrCode.UNAUTHORIZED := by
  unfold passwordCheck at h
  split at h
  · cases h
  · split at h
    · cases h
    · split at h
      · cases h
        rfl
      · split at h
        · cases h
          rfl
        · split at h
          · cases h
          · cases h
            rfl

/-- C2 counterexample: in the store `dbProbe` at time 100, slug "se" is
expired, slug "sc" is consumed and slug "sn" never existed, yet the
responses of `checkRequirements` (and of `getBySlug`) differ between
these cases: the error messages distinguish them, so the three cases do
not produce a single indistinguishable response. -/
theorem C2_distinguishable_counterexample :
    errMsg (checkRequirements 100 dbProbe "se")
        ≠ errMsg (checkRequirements 100 dbProbe "sn")
    ∧ errMsg (checkRequirements 100 dbProbe "sc")
        ≠ errMsg (checkRequirements 100 dbProbe "sn")
    ∧ errMsg ((getBySlug (fun _ _ => false) true 100 ctxAnon rlW dbProbe
          "se" none).1)
        ≠ errMsg ((getBySlug (fun _ _ => false) true 100 ctxAnon rlW dbProbe
          "sn" none).1)
    ∧ errMsg ((getBySlug (fun _ _ => false) true 100 ctxAnon rlW dbProbe
          "sc" none).1)
        ≠ errMsg ((getBySlug (fun _ _ => false) true 100 ctxAnon rlW dbProbe
          "sn" none).1) := by
  refine ⟨?_, ?_, ?_, ?_⟩ <;> decide

/-- C2 amended: the three cases (absent, expired, consumed) all yield
the same error code NOT_FOUND from both `checkRequirements` and
`getBySlug`, but the error messages differ per case ("Secret not
found" / "Secret has expired" / "Secret has already been accessed"),
so an unauthenticated prober can tell the cases apart by message. -/
theorem C2_not_found_code_but_distinct_messages
    (verify : String → String → Bool) (logOk : Bool) (now : Int)
    (rl : RateLimiter) (db : DB) (slug : String) (pw : Option String) :
    (findUniqueBySlug db slug = none →
      checkRequirements now db slug
          = Except.error ⟨ErrCode.NOT_FOUND, "Secret not found"⟩
      ∧ (getBySlug verify logOk now ctxAnon rl db slug pw).1
          = Except.error ⟨ErrCode.NOT_FOUND, "Secret not found"⟩)
    ∧ (∀ sec : Secret, findUniqueBySlug db slug = some sec →
        isExpiredAt now sec = true →
      checkRequirements now db slug
          = Except.error ⟨ErrCode.NOT_FOUND, "Secret has expired"⟩
      ∧ (getBySlug verify logOk now ctxAnon rl db slug pw).1
          = Except.error ⟨ErrCode.NOT_FOUND, "Secret has expired"⟩)
    ∧ (∀ sec : Secret, findUniqueBySlug db slug = some sec →
        isExpiredAt now sec = false → isConsumed sec = true →
      checkRequirements now db slug
          = Except.error ⟨ErrCode.NOT_FOUND, "Secret has already been accessed"⟩
      ∧ (getBySlug verify logOk now ctxAnon rl db slug pw).1
          = Except.error
              ⟨ErrCode.NOT_FOUND, "Secret has already been accessed"⟩) := by
  refine ⟨?_, ?_, ?_⟩
  · intro hf
    refine ⟨by simp [checkRequirements, hf], ?_⟩
    rw [getBySlug_anon_absent verify logOk now rl db slug pw hf]
  · intro sec hf hexp
    refine ⟨by simp [checkRequirements, hf, hexp], ?_⟩
    rw [getBySlug_anon_expired verify logOk now rl db slug pw sec hf hexp]
  · intro sec hf hexp hcons
    refine ⟨by simp [checkRequirements, hf, hexp, hcons], ?_⟩
    rw [getBySlug_anon_consumed verify logOk now rl db slug pw sec hf hexp
      hcons]

/-- Witness for the amended C2 at the concrete store `dbProbe`:
exercises the absent, expired and consumed cases. -/
theorem C2_not_found_code_witness :
    (findUniqueBySlug dbProbe "sn" = none
      ∧ findUniqueBySlug dbProbe "se" = some secExpired
      ∧ isExpiredAt 100 secExpired = true
      ∧ findUniqueBySlug dbProbe "sc" = some secConsumed
      ∧ isExpiredAt 100 secConsumed = false
      ∧ isConsumed secConsumed = true)
    ∧ checkRequirements 100 dbProbe "sn"
        = Except.error ⟨ErrCode.NOT_FOUND, "Secret not found"⟩
    ∧ checkRequirements 100 dbProbe "se"
        = Except.error ⟨ErrCode.NOT_FOUND, "Secret has expired"⟩
    ∧ checkRequirements 100 dbProbe "sc"
        = Except.error ⟨ErrCode.NOT_FOUND, "Secret has already been accessed"⟩
    := by
  have h := C2_not_found_code_but_distinct_messages (fun _ _ => false) true 100
    rlW dbProbe "sn" none
  have h2 := C2_not_found_code_but_distinct_messages (fun _ _ => false) true 100
    rlW dbProbe "se" none
  have h3 := C2_not_found_code_but_distinct_messages (fun _ _ => false) true 100
    rlW dbProbe "sc" none
  exact ⟨⟨rfl, rfl, rfl, rfl, rfl, rfl⟩,
    (h.1 rfl).1,
    (h2.2.1 secExpired rfl rfl).1,
    (h3.2.2 secConsumed rfl rfl rfl).1⟩

/-- Witness for C1 at the concrete store `dbW` holding the one-time
secret `secW`: the first disclosure succeeds and returns the content. -/
theorem C1_one_time_single_disclosure_witness :
    (findUniqueBySlug dbW "s1" = some secW
      ∧ secW.isOneTimeAccess = true
      ∧ secW.hasBeenAccessed = false
      ∧ isExpiredAt 5 secW = false
      ∧ passwordCheck (fun _ _ => false) secW none = none)
    ∧ (∃ res : GetResult,
        (getBySlug (fun _ _ => false) true 5 ctxAnon rlW dbW "s1" none).1
          = Except.ok res
        ∧ res.content = secW.content)
    ∧ (∀ (verify2 : String → String → Bool) (logOk2 : Bool) (now2 : Int)
          (rl2 : RateLimiter) (pw2 : Option String),
        errCode (getBySlug verify2 logOk2 now2 ctxAnon rl2
            (getBySlug (fun _ _ => false) true 5 ctxAnon rlW dbW "s1" none).2.1
            "s1" pw2).1 = some ErrCode.NOT_FOUND) := by
  have h := C1_one_time_single_disclosure (fun _ _ => false) 5 rlW dbW "s1"
    none secW rfl rfl rfl rfl rfl
  exact ⟨⟨rfl, rfl, rfl, rfl, rfl⟩, h.1, h.2.2.1⟩

/-- C3: for a live secret (found, not expired, not consumed),
`getBySlug` yields UNAUTHORIZED exactly when the password gate fails,
i.e. when a password hash is stored and the supplied password is
absent (or empty, which the code treats as absent) or fails bcrypt
verification; and when no password hash is stored, `getBySlug`
succeeds with no password input at all. -/
theorem C3_password_gate (verify : String → String → Bool) (now : Int)
    (rl : RateLimiter) (db : DB) (slug : String) (pw : Option String)
    (sec : Secret)
    (hfind : findUniqueBySlug db slug = some sec)
    (hexp : isExpiredAt now sec = false)
    (hcons : isConsumed sec = false) :
    (errCode ((getBySlug verify true now ctxAnon rl db slug pw).1)
        = some ErrCode.UNAUTHORIZED
      ↔ passwordGateOk verify sec pw = false)
    ∧ (sec.password = none →
        ∃ r : GetResult,
          (getBySlug verify true now ctxAnon rl db slug none).1
            = Except.ok r) := by
  constructor
  · cases hpc : passwordCheck verify sec pw with
    | none =>
        rw [getBySlug_anon_success verify now rl db slug pw sec hfind hexp
          hcons hpc]
        constructor
        · intro h
          simp [errCode] at h
        · intro h
          rw [passwordGateOk, hpc] at h
          cases h
    | some e =>
        rw [getBySlug_anon_pwerr verify true now rl db slug pw sec e hfind
          hexp hcons hpc]
        constructor
        · intro _
          rw [passwordGateOk, hpc]
          rfl
        · intro _
          simp [errCode, passwordCheck_code verify sec pw e hpc]
  · intro hnone
    have hpc : passwordCheck verify sec none = none := by
      simp [passwordCheck, hnone]
    exact ⟨_, by rw [getBySlug_anon_success verify now rl db slug none sec
      hfind hexp hcons hpc]⟩

/-- Witness for C3 at the unprotected secret `secW` in `dbW`: no
UNAUTHORIZED is raised, and disclosure succeeds without a password. -/
theorem C3_password_gate_witness :
    (findUniqueBySlug dbW "s1" = some secW
      ∧ isExpiredAt 5 secW = false
      ∧ isConsumed secW = false)
    ∧ ((errCode ((getBySlug (fun _ _ => false) true 5 ctxAnon rlW dbW "s1"
          none).1) = some ErrCode.UNAUTHORIZED
        ↔ passwordGateOk (fun _ _ => false) secW none = false)
      ∧ (secW.password = none →
          ∃ r : GetResult,
            (getBySlug (fun _ _ => false) true 5 ctxAnon rlW dbW "s1"
              none).1 = Except.ok r)) :=
  ⟨⟨rfl, rfl, rfl⟩,
   C3_password_gate (fun _ _ => false) 5 rlW dbW "s1" none secW rfl rfl rfl⟩

/-- C5 counterexample: disclosing the live secret `secW` while the
access-log insert fails yields an internal error and an unchanged
store, not a successful disclosure — the logging failure is not
swallowed. -/
theorem C5_log_failure_counterexample :
    getBySlug (fun _ _ => false) false 5 ctxAnon rlW dbW "s1" none
      = (Except.error ⟨ErrCode.INTERNAL_SERVER_ERROR,
          "Failed to create access log entry"⟩, dbW, rlW) :=
  getBySlug_anon_logfail (fun _ _ => false) 5 rlW dbW "s1" none secW
    rfl rfl rfl rfl

/-- C5 amended: the `prisma.accessLog.create` call in `getBySlug` is
awaited with no try/catch, so when it fails the whole disclosure fails
with the propagated error, no content is returned, and the store is
left unchanged (in particular `hasBeenAccessed` is not set). -/
theorem C5_log_failure_aborts_disclosure (verify : String → String → Bool)
    (now : Int) (rl : RateLimiter) (db : DB) (slug : String)
    (pw : Option String) (sec : Secret)
    (hfind : findUniqueBySlug db slug = some sec)
    (hexp : isExpiredAt now sec = false)
    (hcons : isConsumed sec = false)
    (hpc : passwordCheck verify sec pw = none) :
    getBySlug verify false now ctxAnon rl db slug pw
      = (Except.error ⟨ErrCode.INTERNAL_SERVER_ERROR,
          "Failed to create access log entry"⟩, db, rl) :=
  getBySlug_anon_logfail verify now rl db slug pw sec hfind hexp hcons hpc

/-- Witness for the amended C5 at the concrete store `dbW`. -/
theorem C5_log_failure_aborts_disclosure_witness :
    (findUniqueBySlug dbW "s1" = some secW
      ∧ isExpiredAt 5 secW = false
      ∧ isConsumed secW = false
      ∧ passwordCheck (fun _ _ => false) secW none = none)
    ∧ getBySlug (fun _ _ => false) false 5 ctxAnon rlW dbW "s1" none
        = (Except.error ⟨ErrCode.INTERNAL_SERVER_ERROR,
            "Failed to create access log entry"⟩, dbW, rlW) :=
  ⟨⟨rfl, rfl, rfl, rfl⟩,
   C5_log_failure_aborts_disclosure (fun _ _ => false) 5 rlW dbW "s1" none
     secW rfl rfl rfl rfl⟩

/-- C7 counterexample: `secBoundary` has `expiresAt = 100`, yet at
`now = 100` both `checkRequirements` and `getBySlug` succeed and the
content is returned — the code uses a strict comparison, so at the
exact instant `now = expiresAt` the secret is not yet expired. -/
theorem C7_boundary_counterexample :
    secBoundary.expiresAt = some 100
    ∧ isExpiredAt 100 secBoundary = false
    ∧ errCode (checkRequirements 100 dbBoundary "sb") = none
    ∧ (getBySlug (fun _ _ => false) true 100 ctxAnon rlW dbBoundary "sb"
        none).1 = Except.ok ⟨20, none, "cb", some 100, false, 0⟩ := by
  refine ⟨rfl, rfl, rfl, ?_⟩
  rw [getBySlug_anon_success (fun _ _ => false) 100 rlW dbBoundary "sb" none
    secBoundary rfl rfl rfl rfl]
  rfl

/-- C7 amended: a secret is expired exactly when `expiresAt < now`
strictly (so at `now = expiresAt` it is still live), and an expired
secret always yields NOT_FOUND from both `getBySlug` and
`checkRequirements`, regardless of `hasBeenAccessed`. -/
theorem C7_strict_expiry (verify : String → String → Bool) (logOk : Bool)
    (now : Int) (rl : RateLimiter) (db : DB) (slug : String)
    (pw : Option String) (sec : Secret)
    (hfind : findUniqueBySlug db slug = some sec) :
    (isExpiredAt now sec = true ↔ ∃ e : Int, sec.expiresAt = some e ∧ e < now)
    ∧ (isExpiredAt now sec = true →
        (getBySlug verify logOk now ctxAnon rl db slug pw).1
            = Except.error ⟨ErrCode.NOT_FOUND, "Secret has expired"⟩
        ∧ checkRequirements now db slug
            = Except.error ⟨ErrCode.NOT_FOUND, "Secret has expired"⟩) := by
  constructor
  · cases h : sec.expiresAt <;> simp [isExpiredAt, h]
  · intro hexp
    refine ⟨?_, by simp [checkRequirements, hfind, hexp]⟩
    rw [getBySlug_anon_expired verify logOk now rl db slug pw sec hfind hexp]

/-- Witness for the amended C7: `secBoundary` at time 200 is expired
and both endpoints mask it as NOT_FOUND. -/
theorem C7_strict_expiry_witness :
    (findUniqueBySlug dbBoundary "sb" = some secBoundary
      ∧ isExpiredAt 200 secBoundary = true)
    ∧ ((getBySlug (fun _ _ => false) true 200 ctxAnon rlW dbBoundary "sb"
          none).1 = Except.error ⟨ErrCode.NOT_FOUND, "Secret has expired"⟩
      ∧ checkRequirements 200 dbBoundary "sb"
          = Except.error ⟨ErrCode.NOT_FOUND, "Secret has expired"⟩) :=
  ⟨⟨rfl, rfl⟩,
   (C7_strict_expiry (fun _ _ => false) true 200 rlW dbBoundary "sb" none
      secBoundary rfl).2 rfl⟩

/-- C6 counterexample: creating with a generated slug that already
exists in the store ("s1" in `dbW`) makes the creation fail with the
unique-constraint error and leaves the store unchanged — there is no
retry of slug generation. -/
theorem C6_no_retry_counterexample :
    create (fun s => s) 5 ctxAnon rlW "s1" ⟨none, "c", none, none, false⟩ dbW
      = (Except.error ⟨ErrCode.INTERNAL_SERVER_ERROR,
          "Unique constraint failed on the fields: (slug)"⟩, dbW, rlW) := by
  rfl

/-- C6 amended: `create` calls `nanoid(12)` exactly once; if the
generated slug collides with an existing row the underlying
`prisma.secret.create` throws the unique-constraint error and the
creation fails with no retry; with a fresh slug the creation succeeds
and returns that slug. -/
theorem C6_single_slug_generation (hashFn : String → String) (now : Int)
    (rl : RateLimiter) (genSlug : String) (input : CreateInput) (db : DB)
    (hc : (input.content == "") = false) :
    (db.secrets.any (fun s => s.slug == genSlug) = true →
      create hashFn now ctxAnon rl genSlug input db
        = (Except.error ⟨ErrCode.INTERNAL_SERVER_ERROR,
            "Unique constraint failed on the fields: (slug)"⟩, db, rl))
    ∧ (db.secrets.any (fun s => s.slug == genSlug) = false →
      ∃ res : CreateResult,
        (create hashFn now ctxAnon rl genSlug input db).1 = Except.ok res
        ∧ res.slug = genSlug) := by
  constructor
  · intro h
    simp [create, rateGate, ctxAnon, hc, h]
  · intro h
    refine ⟨⟨db.nextId, genSlug, input.title, input.expiresAt,
      input.isOneTimeAccess, now⟩, ?_, rfl⟩
    simp [create, createdSecret, rateGate, ctxAnon, hc, h]

/-- Witness for the amended C6: collision on "s1" in `dbW` fails, a
fresh slug "fresh1" succeeds. -/
theorem C6_single_slug_generation_witness :
    ((("c" : String) == "") = false
      ∧ dbW.secrets.any (fun s => s.slug == "s1") = true
      ∧ dbW.secrets.any (fun s => s.slug == "fresh1") = false)
    ∧ create (fun s => s) 5 ctxAnon rlW "s1" ⟨none, "c", none, none, false⟩ dbW
        = (Except.error ⟨ErrCode.INTERNAL_SERVER_ERROR,
            "Unique constraint failed on the fields: (slug)"⟩, dbW, rlW)
    ∧ (∃ res : CreateResult,
        (create (fun s => s) 5 ctxAnon rlW "fresh1"
          ⟨none, "c", none, none, false⟩ dbW).1 = Except.ok res
        ∧ res.slug = "fresh1") :=
  ⟨⟨rfl, rfl, rfl⟩,
   (C6_single_slug_generation (fun s => s) 5 rlW "s1"
      ⟨none, "c", none, none, false⟩ dbW rfl).1 rfl,
   (C6_single_slug_generation (fun s => s) 5 rlW "fresh1"
      ⟨none, "c", none, none, false⟩ dbW rfl).2 rfl⟩

/-- C8: `update` returns NOT_FOUND when no secret has the given id,
FORBIDDEN when the requester is not the owner (including ownerless
secrets), succeeds for the owner returning the updated projection, and
— in every case — leaves `content`, `password`, `slug`,
`isOneTimeAccess`, `hasBeenAccessed` (and `id`, `userId`, `createdAt`)
of every stored secret unchanged: only `title` and `expiresAt` (and the
schema-managed `updatedAt`) can change. -/
theorem C8_update_ownership_and_frame (now : Int) (requesterId : Nat)
    (db : DB) (id : Nat) (title : Option String) (expiresAt : Option Int) :
    (findUniqueById db id = none →
      update now requesterId db id title expiresAt
        = (Except.error ⟨ErrCode.NOT_FOUND, "Secret not found"⟩, db))
    ∧ (∀ sec : Secret, findUniqueById db id = some sec →
        sec.userId ≠ some requesterId →
      update now requesterId db id title expiresAt
        = (Except.error ⟨ErrCode.FORBIDDEN,
            "Not authorized to update this secret"⟩, db))
    ∧ (∀ sec : Secret, findUniqueById db id = some sec →
        sec.userId = some requesterId →
      (update now requesterId db id title expiresAt).1
        = Except.ok ⟨sec.id, (applyUpdate now title expiresAt sec).title,
            (applyUpdate now title expiresAt sec).expiresAt, now⟩)
    ∧ List.Forall₂ (fun s s2 =>
        s2.content = s.content ∧ s2.password = s.password ∧ s2.slug = s.slug
        ∧ s2.isOneTimeAccess = s.isOneTimeAccess
        ∧ s2.hasBeenAccessed = s.hasBeenAccessed
        ∧ s2.id = s.id ∧ s2.userId = s.userId ∧ s2.createdAt = s.createdAt)
        db.secrets (update now requesterId db id title expiresAt).2.secrets
    := by
  refine ⟨?_, ?_, ?_, ?_⟩
  · intro h
    simp [update, h]
  · intro sec hf hne
    have hb : (sec.userId != some requesterId) = true := by
      simp [bne_iff_ne, hne]
    simp [update, hf, hb]
  · intro sec hf he
    have hb : (sec.userId != some requesterId) = false := by
      simp [bne_iff_ne, he]
    simp [update, hf, hb, applyUpdate]
  · cases hf : findUniqueById db id with
    | none =>
        simp only [update, hf]
        exact List.forall₂_same.2 (fun x _ => ⟨rfl, rfl, rfl, rfl, rfl, rfl,
          rfl, rfl⟩)
    | some sec =>
        by_cases hb : (sec.userId != some requesterId) = true
        · simp only [update, hf, hb, if_true]
          exact List.forall₂_same.2 (fun x _ => ⟨rfl, rfl, rfl, rfl, rfl,
            rfl, rfl, rfl⟩)
        · simp only [update, hf, eq_false_of_ne_true hb, Bool.false_eq_true,
            if_false]
          rw [List.forall₂_map_right_iff]
          refine List.forall₂_same.2 (fun x _ => ?_)
          by_cases hid : (x.id == id) = true <;>
            simp [hid, applyUpdate]

/-- Witness for C8 with owned secrets: a store with one secret owned
by user 7; the owner update succeeds, a stranger update is FORBIDDEN,
and a missing id is NOT_FOUND. -/
theorem C8_update_ownership_and_frame_witness :
    (findUniqueById dbOwned 30 = some secOwned
      ∧ secOwned.userId = some 7 ∧ secOwned.userId ≠ some 8
      ∧ findUniqueById dbOwned 99 = none)
    ∧ (update 50 7 dbOwned 30 (some "new") none).1
        = Except.ok ⟨secOwned.id,
            (applyUpdate 50 (some "new") none secOwned).title,
            (applyUpdate 50 (some "new") none secOwned).expiresAt, 50⟩
    ∧ update 50 8 dbOwned 30 (some "new") none
        = (Except.error ⟨ErrCode.FORBIDDEN,
            "Not authorized to update this secret"⟩, dbOwned)
    ∧ update 50 7 dbOwned 99 (some "new") none
        = (Except.error ⟨ErrCode.NOT_FOUND, "Secret not found"⟩, dbOwned) :=
  ⟨⟨rfl, rfl, by decide, rfl⟩,
   (C8_update_ownership_and_frame 50 7 dbOwned 30 (some "new") none).2.2.1
     secOwned rfl rfl,
   (C8_update_ownership_and_frame 50 8 dbOwned 30 (some "new") none).2.1
     secOwned rfl (by decide),
   (C8_update_ownership_and_frame 50 7 dbOwned 99 (some "new") none).1 rfl⟩

/-- C9: creating a secret with nonempty content X, no password, no
expiration and `isOneTimeAccess = false` under a fresh generated slug
succeeds, exposes that slug, and an immediately following `getBySlug`
on the resulting store with that slug succeeds and returns content X;
moreover the `create` response is the same for any content and any
password (it is the public-safe projection: no content, no password
hash). -/
theorem C9_create_get_round_trip (hashFn : String → String)
    (verify : String → String → Bool) (now : Int) (rl rlB : RateLimiter)
    (genSlug : String) (t : Option String) (X : String) (db : DB)
    (hX : (X == "") = false)
    (hfresh : db.secrets.any (fun s => s.slug == genSlug) = false) :
    ∃ res : CreateResult,
      (create hashFn now ctxAnon rl genSlug ⟨t, X, none, none, false⟩ db).1
          = Except.ok res
      ∧ res.slug = genSlug
      ∧ (∃ r2 : GetResult,
          (getBySlug verify true now ctxAnon rlB
            (create hashFn now ctxAnon rl genSlug ⟨t, X, none, none, false⟩
              db).2.1 genSlug none).1 = Except.ok r2
          ∧ r2.content = X)
      ∧ (∀ (Y : String) (q : Option String), (Y == "") = false →
          (create hashFn now ctxAnon rl genSlug ⟨t, Y, q, none, false⟩ db).1
            = Except.ok res) := by
  have hnone : db.secrets.find? (fun s => s.slug == genSlug) = none := by
    cases hfd : db.secrets.find? (fun s => s.slug == genSlug) with
    | none => rfl
    | some x =>
        have hmem := List.mem_of_find?_eq_some hfd
        have hpx := List.find?_some hfd
        have h2 : db.secrets.any (fun s => s.slug == genSlug) = true :=
          List.any_eq_true.mpr ⟨x, hmem, hpx⟩
        rw [hfresh] at h2
        cases h2
  have hdb : (create hashFn now ctxAnon rl genSlug ⟨t, X, none, none, false⟩
      db).2.1
      = DB.mk (db.secrets ++
            [createdSecret hashFn now ctxAnon genSlug
              ⟨t, X, none, none, false⟩ db])
          db.accessLogs (db.nextId + 1) := by
    simp [create, rateGate, ctxAnon, hX, hfresh]
  have hfind2 : findUniqueBySlug
      ((create hashFn now ctxAnon rl genSlug ⟨t, X, none, none, false⟩
        db).2.1) genSlug
      = some (createdSecret hashFn now ctxAnon genSlug
          ⟨t, X, none, none, false⟩ db) := by
    rw [hdb]
    unfold findUniqueBySlug
    show (db.secrets ++ [_]).find? _ = _
    rw [find?_append_of_none _ _ _ hnone]
    simp [List.find?, createdSecret]
  refine ⟨⟨db.nextId, genSlug, t, none, false, now⟩, ?_, rfl, ?_, ?_⟩
  · simp [create, createdSecret, rateGate, ctxAnon, hX, hfresh]
  · refine ⟨⟨db.nextId, t, X, none, false, now⟩, ?_, rfl⟩
    rw [getBySlug_anon_success verify now rlB _ genSlug none _ hfind2 rfl rfl
      (by simp [passwordCheck, createdSecret, strTruthy])]
    rfl
  · intro Y q hY
    simp [create, createdSecret, rateGate, ctxAnon, hY, hfresh]

/-- Witness for C9: content "hello" in the empty store with generated
slug "g1". -/
theorem C9_create_get_round_trip_witness :
    ((("hello" : String) == "") = false
      ∧ (⟨[], [], 0⟩ : DB).secrets.any (fun s => s.slug == "g1") = false)
    ∧ (∃ res : CreateResult,
        (create (fun s => s) 5 ctxAnon rlW "g1"
          ⟨none, "hello", none, none, false⟩ ⟨[], [], 0⟩).1 = Except.ok res
        ∧ res.slug = "g1"
        ∧ (∃ r2 : GetResult,
            (getBySlug (fun _ _ => false) true 5 ctxAnon rlW
              (create (fun s => s) 5 ctxAnon rlW "g1"
                ⟨none, "hello", none, none, false⟩ ⟨[], [], 0⟩).2.1
              "g1" none).1 = Except.ok r2
            ∧ r2.content = "hello")
        ∧ (∀ (Y : String) (q : Option String), (Y == "") = false →
            (create (fun s => s) 5 ctxAnon rlW "g1"
              ⟨none, Y, q, none, false⟩ ⟨[], [], 0⟩).1 = Except.ok res)) :=
  ⟨⟨rfl, rfl⟩,
   C9_create_get_round_trip (fun s => s) (fun _ _ => false) 5 rlW rlW "g1"
     none "hello" ⟨[], [], 0⟩ rfl rfl⟩

/-- With no request object in the context, `getBySlug` is independent
of the rate limiter: its response and store never depend on `rl`, the
limiter is returned untouched, and the response is never
TOO_MANY_REQUESTS. -/
theorem getBySlug_noreq (verify : String → String → Bool) (logOk : Bool)
    (now : Int) (u : Option UserCtx) (db : DB) (slug : String)
    (pw : Option String) :
    ∃ (r : Except TRPCErr GetResult) (d : DB),
      errCode r ≠ some ErrCode.TOO_MANY_REQUESTS
      ∧ ∀ rl : RateLimiter,
          getBySlug verify logOk now ⟨none, u⟩ rl db slug pw = (r, d, rl) := by
  cases hf : findUniqueBySlug db slug with
  | none =>
      exact ⟨Except.error ⟨ErrCode.NOT_FOUND, "Secret not found"⟩, db,
        by simp [errCode],
        fun rl => by simp [getBySlug, rateGate, hf]⟩
  | some sec =>
      by_cases hexp : isExpiredAt now sec = true
      · exact ⟨Except.error ⟨ErrCode.NOT_FOUND, "Secret has expired"⟩, db,
          by simp [errCode],
          fun rl => by simp [getBySlug, rateGate, hf, hexp]⟩
      · by_cases hcons : isConsumed sec = true
        · exact ⟨Except.error
              ⟨ErrCode.NOT_FOUND, "Secret has already been accessed"⟩, db,
            by simp [errCode],
            fun rl => by simp [getBySlug, rateGate, hf, hexp, hcons]⟩
        · cases hpc : passwordCheck verify sec pw with
          | some e =>
              refine ⟨Except.error e, db, ?_, fun rl => by
                simp [getBySlug, rateGate, hf, hexp, hcons, hpc]⟩
              simp [errCode, passwordCheck_code verify sec pw e hpc]
          | none =>
              cases logOk with
              | false =>
                  exact ⟨Except.error ⟨ErrCode.INTERNAL_SERVER_ERROR,
                      "Failed to create access log entry"⟩, db,
                    by simp [errCode],
                    fun rl => by simp [getBySlug, rateGate, hf, hexp, hcons,
                      hpc]⟩
              | true =>
                  refine ⟨Except.ok ⟨sec.id, sec.title, sec.content,
                      sec.expiresAt, sec.isOneTimeAccess, sec.createdAt⟩,
                    discloseDB now ⟨none, u⟩ db sec,
                    by simp [errCode],
                    fun rl => by simp [getBySlug, rateGate, hf, hexp, hcons,
                      hpc]⟩

/-- With no request object in the context, `create` is independent of
the rate limiter: its response and store never depend on `rl`, the
limiter is returned untouched, and the response is never
TOO_MANY_REQUESTS. -/
theorem create_noreq (hashFn : String → String) (now : Int)
    (u : Option UserCtx) (genSlug : String) (input : CreateInput) (db : DB) :
    ∃ (r : Except TRPCErr CreateResult) (d : DB),
      errCode r ≠ some ErrCode.TOO_MANY_REQUESTS
      ∧ ∀ rl : RateLimiter,
          create hashFn now ⟨none, u⟩ rl genSlug input db = (r, d, rl) := by
  by_cases hc : (input.content == "") = true
  · exact ⟨Except.error ⟨ErrCode.BAD_REQUEST, "Content is required"⟩, db,
      by simp [errCode], fun rl => by simp [create, hc]⟩
  · by_cases hcol : db.secrets.any (fun s => s.slug == genSlug) = true
    · exact ⟨Except.error ⟨ErrCode.INTERNAL_SERVER_ERROR,
          "Unique constraint failed on the fields: (slug)"⟩, db,
        by simp [errCode],
        fun rl => by simp [create, rateGate, hc, hcol]⟩
    · refine ⟨Except.ok ⟨db.nextId, genSlug, input.title, input.expiresAt,
          input.isOneTimeAccess, now⟩,
        DB.mk (db.secrets ++
            [createdSecret hashFn now ⟨none, u⟩ genSlug input db])
          db.accessLogs (db.nextId + 1),
        by simp [errCode],
        fun rl => by
          simp [create, createdSecret, rateGate, hc, hcol]⟩

/-- C10: admission control runs only when the call context carries a
request object.  With `ctx.req` absent, both `create` and `getBySlug`
skip the rate-limit check entirely: they can never answer
TOO_MANY_REQUESTS, they return the limiter unchanged, and their
response and resulting store are identical whatever the prior limiter
state (here: an arbitrary limiter versus any other, e.g. a saturated
one). -/
theorem C10_missing_req_skips_rate_limit (verify : String → String → Bool)
    (logOk : Bool) (now : Int) (u : Option UserCtx) (rl rlB : RateLimiter)
    (db : DB) (slug : String) (pw : Option String)
    (hashFn : String → String) (genSlug : String) (input : CreateInput) :
    (errCode ((getBySlug verify logOk now ⟨none, u⟩ rl db slug pw).1)
        ≠ some ErrCode.TOO_MANY_REQUESTS
      ∧ (getBySlug verify logOk now ⟨none, u⟩ rl db slug pw).2.2 = rl
      ∧ (getBySlug verify logOk now ⟨none, u⟩ rl db slug pw).1
          = (getBySlug verify logOk now ⟨none, u⟩ rlB db slug pw).1
      ∧ (getBySlug verify logOk now ⟨none, u⟩ rl db slug pw).2.1
          = (getBySlug verify logOk now ⟨none, u⟩ rlB db slug pw).2.1)
    ∧ (errCode ((create hashFn now ⟨none, u⟩ rl genSlug input db).1)
        ≠ some ErrCode.TOO_MANY_REQUESTS
      ∧ (create hashFn now ⟨none, u⟩ rl genSlug input db).2.2 = rl
      ∧ (create hashFn now ⟨none, u⟩ rl genSlug input db).1
          = (create hashFn now ⟨none, u⟩ rlB genSlug input db).1
      ∧ (create hashFn now ⟨none, u⟩ rl genSlug input db).2.1
          = (create hashFn now ⟨none, u⟩ rlB genSlug input db).2.1) := by
  obtain ⟨r, d, hcode, hfun⟩ := getBySlug_noreq verify logOk now u db slug pw
  obtain ⟨r2, d2, hcode2, hfun2⟩ := create_noreq hashFn now u genSlug input db
  refine ⟨⟨?_, ?_, ?_, ?_⟩, ?_, ?_, ?_, ?_⟩ <;>
    simp [hfun, hfun2, hcode, hcode2]

/-- Witness for C10: a fresh limiter `rlW` versus the saturated
limiter `rlSat` on the concrete store `dbW`: the responses agree and
no TOO_MANY_REQUESTS is possible. -/
theorem C10_missing_req_skips_rate_limit_witness :
    (errCode ((getBySlug (fun _ _ => false) true 5 ⟨none, none⟩ rlSat dbW
        "s1" none).1) ≠ some ErrCode.TOO_MANY_REQUESTS
      ∧ (getBySlug (fun _ _ => false) true 5 ⟨none, none⟩ rlSat dbW "s1"
          none).2.2 = rlSat
      ∧ (getBySlug (fun _ _ => false) true 5 ⟨none, none⟩ rlSat dbW "s1"
          none).1
        = (getBySlug (fun _ _ => false) true 5 ⟨none, none⟩ rlW dbW "s1"
          none).1
      ∧ (getBySlug (fun _ _ => false) true 5 ⟨none, none⟩ rlSat dbW "s1"
          none).2.1
        = (getBySlug (fun _ _ => false) true 5 ⟨none, none⟩ rlW dbW "s1"
          none).2.1)
    ∧ (errCode ((create (fun s => s) 5 ⟨none, none⟩ rlSat "g2"
        ⟨none, "c", none, none, false⟩ dbW).1)
          ≠ some ErrCode.TOO_MANY_REQUESTS
      ∧ (create (fun s => s) 5 ⟨none, none⟩ rlSat "g2"
          ⟨none, "c", none, none, false⟩ dbW).2.2 = rlSat
      ∧ (create (fun s => s) 5 ⟨none, none⟩ rlSat "g2"
          ⟨none, "c", none, none, false⟩ dbW).1
        = (create (fun s => s) 5 ⟨none, none⟩ rlW "g2"
          ⟨none, "c", none, none, false⟩ dbW).1
      ∧ (create (fun s => s) 5 ⟨none, none⟩ rlSat "g2"
          ⟨none, "c", none, none, false⟩ dbW).2.1
        = (create (fun s => s) 5 ⟨none, none⟩ rlW "g2"
          ⟨none, "c", none, none, false⟩ dbW).2.1) :=
  C10_missing_req_skips_rate_limit (fun _ _ => false) true 5 none rlSat rlW
    dbW "s1" none (fun s => s) "g2" ⟨none, "c", none, none, false⟩
